import Mathlib

/-!
Shallow embedding of `data/chromadb/init_embedded.py`.

The script defines a single function `initialize_chromadb()` that

  1. computes `persist_dir = os.path.dirname(os.path.abspath(__file__)) + "/persist"`
     (line 11),
  2. constructs `client = chromadb.Client(Settings(chroma_db_impl="duckdb+parquet",
     persist_directory=persist_dir, anonymized_telemetry=False))` (lines 13-17),
     OUTSIDE of any `try` block,
  3. inside a `try` block (lines 20-42): creates a collection, adds one document,
     queries it, prints two success lines and returns `True`,
  4. in the `except Exception` handler (lines 44-46): prints a failure line
     containing the error's description and returns `False`.

The external ChromaDB library is opaque to the script, so the embedding
parametrises `initialize_chromadb` over

  * `mkClient : Settings → Except String σ` — the outcome of the
    `chromadb.Client(Settings(...))` construction (line 13), and
  * `c : ChromaClient σ` — the outcomes of the three method calls the script
    makes on the client/collection objects (`create_collection`, `add`, `query`),
    acting on an abstract library state `σ`.

The script's own directory (`os.path.dirname(os.path.abspath(__file__))`), an
environment input, is the parameter `script_dir`.

A run is recorded as a `RunResult`: the configuration objects built, the trace
of external calls attempted (in order, with their arguments), the lines printed
to standard output, and the outcome.  `Outcome.raised e` means the Python
exception `e` propagated out of `initialize_chromadb` to its caller;
`Outcome.returned b st` means the function returned the boolean `b` normally,
with the library state being `st` at that point.
-/

/-- The configuration object `Settings(chroma_db_impl="duckdb+parquet",
persist_directory=persist_dir, anonymized_telemetry=False)` of lines 13-17. -/
structure Settings where
  chroma_db_impl : String
  persist_directory : String
  anonymized_telemetry : Bool

deriving instance DecidableEq for Settings

/-- The structured response of `collection.query` (line 34): a Python dict in
which the key `"documents"` may be present (holding one list of matched
document texts per query text) or absent. -/
structure QueryResult where
  documents : Option (List (List String))

deriving instance DecidableEq for QueryResult

/-- The evaluation of `results['documents'][0]` at line 40: a missing
`"documents"` key raises a `KeyError`, an empty list raises an `IndexError`;
both are `Exception`s caught by the handler at line 44. -/
def getItem0 (r : QueryResult) : Except String (List String) :=
  match r.documents with
  | none => Except.error "KeyError: documents"
  | some [] => Except.error "list index out of range"
  | some (d :: _) => Except.ok d

/-- Tags for the four external-library call sites of the script, in source
order: line 13 (`chromadb.Client`), line 21 (`client.create_collection`),
line 27 (`collection.add`), line 34 (`collection.query`). -/
inductive OpTag where
  | clientCtor : OpTag
  | createCall : OpTag
  | addCall : OpTag
  | queryCall : OpTag

deriving instance DecidableEq for OpTag

/-- One external-library call made by the script, together with the arguments
the script passes at that call site. -/
inductive OpCall where
  | clientCtor : Settings → OpCall
  | createCall : String → List (String × String) → OpCall
  | addCall : List String → List (List (String × String)) → List String → OpCall
  | queryCall : List String → Nat → OpCall

deriving instance DecidableEq for OpCall

/-- The call site a recorded call belongs to. -/
def OpCall.tag : OpCall → OpTag
  | OpCall.clientCtor _ => OpTag.clientCtor
  | OpCall.createCall _ _ => OpTag.createCall
  | OpCall.addCall _ _ _ => OpTag.addCall
  | OpCall.queryCall _ _ => OpTag.queryCall

/-- How a run of `initialize_chromadb` ends: either a Python exception
propagates to the caller (`raised`), or the function returns a boolean
normally (`returned`), with the library state at the return point. -/
inductive Outcome (σ : Type) where
  | raised : String → Outcome σ
  | returned : Bool → σ → Outcome σ

deriving instance DecidableEq for Outcome

/-- The boolean a run returned, or `none` if it raised. -/
def returnedBool {σ : Type} : Outcome σ → Option Bool
  | Outcome.raised _ => none
  | Outcome.returned b _ => some b

/-- Everything observable about one run of `initialize_chromadb`: the
configuration objects built, the external calls attempted in order, the lines
printed to standard output in order, and the outcome. -/
structure RunResult (σ : Type) where
  built : List Settings
  trace : List OpCall
  printed : List String
  outcome : Outcome σ

/-- The external ChromaDB client library, opaque to the script: the outcome of
each of the three method calls the script makes, over an abstract library
state `σ`.  An `Except.error e` models the call raising a Python exception
whose description is `e`; on an error the library state is unchanged. -/
structure ChromaClient (σ : Type) where
  create_collection : σ → String → List (String × String) → Except String σ
  add : σ → List String → List (List (String × String)) → List String → Except String σ
  query : σ → List String → Nat → Except String QueryResult

/-- The failure line printed by the `except` handler at line 45:
`f"❌ ChromaDB initialization failed: {e}"`. -/
def failMsg (e : String) : String :=
  "❌ ChromaDB initialization failed: " ++ e

/-- The first success line, printed at line 39. -/
def successMsg : String :=
  "✅ ChromaDB offline initialization successful"

/-- The second success line, printed at line 40:
`f"✅ Test collection created with {len(results['documents'][0])} documents"`. -/
def countMsg (n : Nat) : String :=
  "✅ Test collection created with " ++ toString n ++ " documents"

/-- Line 11: `persist_dir = os.path.dirname(os.path.abspath(__file__)) + "/persist"`,
with the script's own directory as parameter. -/
def persist_dir_of (script_dir : String) : String :=
  script_dir ++ "/persist"

/-- The single `Settings(...)` object built at lines 14-16. -/
def init_settings (script_dir : String) : Settings :=
  { chroma_db_impl := "duckdb+parquet"
    persist_directory := persist_dir_of script_dir
    anonymized_telemetry := false }

/-- The function `initialize_chromadb()` of lines 9-46, transcribed
match-by-match from the source:

  * lines 13-17 construct the client from the single `Settings` object; this
    happens BEFORE the `try` of line 20, so a failure here is `Outcome.raised`
    (the exception propagates, nothing is printed);
  * lines 21-24 `client.create_collection("test_offline_collection",
    metadata={"description": "Test collection for offline verification"})`;
  * lines 27-31 `collection.add(documents=[...], metadatas=[...], ids=[...])`;
  * lines 34-37 `collection.query(query_texts=["test document"], n_results=1)`;
  * line 39 prints the first success line, line 40 then evaluates
    `results['documents'][0]` (which can itself raise) and prints the count,
    line 42 returns `True`;
  * any exception raised at lines 21-40 is caught at line 44, the failure line
    is printed and `False` is returned (line 46). -/
def initialize_chromadb {σ : Type} (script_dir : String)
    (mkClient : Settings → Except String σ) (c : ChromaClient σ) : RunResult σ :=
  match mkClient (init_settings script_dir) with
  | Except.error e =>
      { built := [init_settings script_dir]
        trace := [OpCall.clientCtor (init_settings script_dir)]
        printed := []
        outcome := Outcome.raised e }
  | Except.ok client =>
      match c.create_collection client "test_offline_collection"
          [("description", "Test collection for offline verification")] with
      | Except.error e =>
          { built := [init_settings script_dir]
            trace := [OpCall.clientCtor (init_settings script_dir),
              OpCall.createCall "test_offline_collection"
                [("description", "Test collection for offline verification")]]
            printed := [failMsg e]
            outcome := Outcome.returned false client }
      | Except.ok st1 =>
          match c.add st1 ["This is a test document for offline ChromaDB"]
              [[("source", "offline_test")]] ["test_doc_1"] with
          | Except.error e =>
              { built := [init_settings script_dir]
                trace := [OpCall.clientCtor (init_settings script_dir),
                  OpCall.createCall "test_offline_collection"
                    [("description", "Test collection for offline verification")],
                  OpCall.addCall ["This is a test document for offline ChromaDB"]
                    [[("source", "offline_test")]] ["test_doc_1"]]
                printed := [failMsg e]
                outcome := Outcome.returned false st1 }
          | Except.ok st2 =>
              match c.query st2 ["test document"] 1 with
              | Except.error e =>
                  { built := [init_settings script_dir]
                    trace := [OpCall.clientCtor (init_settings script_dir),
                      OpCall.createCall "test_offline_collection"
                        [("description", "Test collection for offline verification")],
                      OpCall.addCall ["This is a test document for offline ChromaDB"]
                        [[("source", "offline_test")]] ["test_doc_1"],
                      OpCall.queryCall ["test document"] 1]
                    printed := [failMsg e]
                    outcome := Outcome.returned false st2 }
              | Except.ok results =>
                  match getItem0 results with
                  | Except.error e =>
                      { built := [init_settings script_dir]
                        trace := [OpCall.clientCtor (init_settings script_dir),
                          OpCall.createCall "test_offline_collection"
                            [("description", "Test collection for offline verification")],
                          OpCall.addCall ["This is a test document for offline ChromaDB"]
                            [[("source", "offline_test")]] ["test_doc_1"],
                          OpCall.queryCall ["test document"] 1]
                        printed := [successMsg, failMsg e]
                        outcome := Outcome.returned false st2 }
                  | Except.ok d0 =>
                      { built := [init_settings script_dir]
                        trace := [OpCall.clientCtor (init_settings script_dir),
                          OpCall.createCall "test_offline_collection"
                            [("description", "Test collection for offline verification")],
                          OpCall.addCall ["This is a test document for offline ChromaDB"]
                            [[("source", "offline_test")]] ["test_doc_1"],
                          OpCall.queryCall ["test document"] 1]
                        printed := [successMsg, countMsg d0.length]
                        outcome := Outcome.returned true st2 }

/-!
Spec-modelled external library.

The storage engine itself is not part of this repository (spec §1: all
storage, indexing, persistence and query logic are delegated to the external
vector-database library, "treated as an opaque collaborator").  For the
claims about concrete runs (fresh directory, repeated runs, frame effects) we
model the collaborator from the spec: §3's data model (a collection is a named
container of document records `{id, text content, metadata}`; collection name
and document id are unique), §6's required operations, and §8's stated
behaviours (duplicate-collection failure, id/collection collision on a second
run, the query returning the inserted document).
-/

/-- Modelled from the spec (§3): a document record `{id, text content,
metadata mapping}`. -/
structure DocumentRecord where
  id : String
  document : String
  metadata : List (String × String)

deriving instance DecidableEq for DocumentRecord

/-- Modelled from the spec (§3): a collection, "a named container of
documents", with its descriptive metadata. -/
structure StoredCollection where
  name : String
  metadata : List (String × String)
  records : List DocumentRecord

deriving instance DecidableEq for StoredCollection

/-- Modelled from the spec (§6): the durable database state in the
persistence directory, owned by the external library. -/
structure Store where
  collections : List StoredCollection

deriving instance DecidableEq for Store

/-- The collection of a given name held in a store, if any. -/
def Store.find (s : Store) (n : String) : Option StoredCollection :=
  s.collections.find? (fun c => c.name == n)

/-- A store with no collections: the state behind a fresh (empty, writable)
persistence directory. -/
def freshStore : Store :=
  { collections := [] }

/-- Modelled from the spec: the in-process client handle, holding the durable
store plus the collection object most recently handed out by
`create_collection` (the script's `collection` variable). -/
structure ClientState where
  store : Store
  current : Option String

deriving instance DecidableEq for ClientState

/-- Modelled from the spec (§3, §8): `create-collection(name, metadata)`
creates an empty collection of that name; a collection of the same name
already present is "surfaced as whatever error the external library raises"
(§8: "duplicate-collection failure"). -/
def storeCreateCollection (st : ClientState) (n : String)
    (md : List (String × String)) : Except String ClientState :=
  if st.store.collections.any (fun c => c.name == n) then
    Except.error ("Collection " ++ n ++ " already exists")
  else
    Except.ok
      { store := { collections :=
          st.store.collections ++ [{ name := n, metadata := md, records := [] }] }
        current := some n }

/-- Modelled from the spec (§3, §6): `collection.add(documents, metadatas,
ids)` appends one record per position to the collection handed out by
`create_collection`; a document id already present in the collection is an
error (§3: "document id unique ... any conflict is surfaced as whatever error
the external library raises"). -/
def storeAdd (st : ClientState) (documents : List String)
    (metadatas : List (List (String × String))) (ids : List String) :
    Except String ClientState :=
  match st.current with
  | none => Except.error "no collection handle"
  | some n =>
      match st.store.find n with
      | none => Except.error ("Collection " ++ n ++ " does not exist")
      | some col =>
          if documents.length != metadatas.length || documents.length != ids.length then
            Except.error "unequal lengths of documents, metadatas and ids"
          else if ids.any (fun i => col.records.any (fun r => r.id == i)) then
            Except.error "existing IDs found"
          else
            Except.ok
              { store := { collections := st.store.collections.map (fun c =>
                  if c.name == n then
                    { c with records := c.records ++
                        ((documents.zip (metadatas.zip ids)).map (fun p =>
                          { id := p.2.2, document := p.1, metadata := p.2.1 })) }
                  else c) }
                current := st.current }

/-- Modelled from the spec (§3, §6, §8): `collection.query(query_texts,
n_results)` is a read returning, for each query text, at most `n_results`
matched document texts from the collection (§8: with one inserted document and
`n_results=1` the first result slot holds that one document). -/
def storeQuery (st : ClientState) (query_texts : List String) (n_results : Nat) :
    Except String QueryResult :=
  match st.current with
  | none => Except.error "no collection handle"
  | some n =>
      match st.store.find n with
      | none => Except.error ("Collection " ++ n ++ " does not exist")
      | some col =>
          Except.ok
            { documents := some (query_texts.map (fun _ =>
                (col.records.map (fun r => r.document)).take n_results)) }

/-- The spec-modelled client, assembled from the three operations. -/
def storeClient : ChromaClient ClientState :=
  { create_collection := storeCreateCollection
    add := storeAdd
    query := storeQuery }

/-- Modelled from the spec (§6): `chromadb.Client(Settings(...))` against a
writable persistence directory currently holding store `s0` yields a client
handle over `s0` with no collection object yet. -/
def mkStoreClient (s0 : Store) : Settings → Except String ClientState :=
  fun _ => Except.ok { store := s0, current := none }

/-- Modelled from the spec (§4.1 step 3 and §6): the persistence directory is
created by the library when the client handle is constructed, so against a
read-only or non-creatable directory the construction itself fails ("Failure
here (e.g., invalid path, incompatible storage backend)"). -/
def mkClientBadDir : Settings → Except String ClientState :=
  fun s => Except.error ("Permission denied: " ++ s.persist_directory)

/-- The durable store after a run: the library state at the point the run
returned (a run that raised during client construction never touched a
store-backed client, so the fresh store stands in — unused below, since
`mkStoreClient` never fails). -/
def afterStore (r : RunResult ClientState) : Store :=
  match r.outcome with
  | Outcome.raised _ => freshStore
  | Outcome.returned _ st => st.store

/-!
Claim theorems.
-/

/-- C6: every run of `initialize_chromadb` builds exactly one configuration
object — backend `"duckdb+parquet"` (embedded/local storage), persistence
directory the script's own directory joined with `"/persist"`, telemetry
disabled — and the very first external-library call of the run is the client
construction receiving exactly that object, so the configuration exists before
any external call is made. -/
theorem single_config_built_first {σ : Type} (script_dir : String)
    (mkClient : Settings → Except String σ) (c : ChromaClient σ) :
    (initialize_chromadb script_dir mkClient c).built =
      [{ chroma_db_impl := "duckdb+parquet"
         persist_directory := script_dir ++ "/persist"
         anonymized_telemetry := false }] ∧
    (initialize_chromadb script_dir mkClient c).trace.head? =
      some (OpCall.clientCtor
        { chroma_db_impl := "duckdb+parquet"
          persist_directory := script_dir ++ "/persist"
          anonymized_telemetry := false }) := by
  unfold initialize_chromadb
  repeat' split
  all_goals exact ⟨rfl, rfl⟩

/-- C1 is false as stated: a failure raised during the client construction
(`chromadb.Client(Settings(...))`, lines 13-17) happens BEFORE the `try` of
line 20, so the single error boundary does not catch it — at this concrete
input the exception propagates to the caller and nothing is printed, instead
of a failure message being printed and `false` returned. -/
theorem clientCtor_failure_propagates :
    (initialize_chromadb "/repo/data/chromadb"
      (fun _ => Except.error "could not connect to backend") storeClient).outcome =
        Outcome.raised "could not connect to backend" ∧
    (initialize_chromadb "/repo/data/chromadb"
      (fun _ => Except.error "could not connect to backend") storeClient).printed = [] :=
  ⟨rfl, rfl⟩

/-- C1 (amended): every failure raised inside the `try` block is caught at the
single boundary of line 44 and converted to the printed failure message
containing exactly that error's description plus a `false` return — if the
collection creation, the insertion, or the query raises `e`, the run prints
`[failMsg e]` and returns `false`; if the result access of line 40 raises `e`,
the run prints `[successMsg, failMsg e]` and returns `false`; and a run whose
client construction succeeds never lets an exception propagate.  (A failure
during configuration building or client construction itself, lines 13-17, is
outside the boundary and propagates — the subject of the counterexample.) -/
theorem try_failures_caught {σ : Type} (script_dir : String)
    (mkClient : Settings → Except String σ) (c : ChromaClient σ) (client : σ)
    (h : mkClient (init_settings script_dir) = Except.ok client) :
    (∀ e, c.create_collection client "test_offline_collection"
        [("description", "Test collection for offline verification")] = Except.error e →
      (initialize_chromadb script_dir mkClient c).printed = [failMsg e] ∧
      (initialize_chromadb script_dir mkClient c).outcome =
        Outcome.returned false client) ∧
    (∀ st1 e, c.create_collection client "test_offline_collection"
        [("description", "Test collection for offline verification")] = Except.ok st1 →
      c.add st1 ["This is a test document for offline ChromaDB"]
        [[("source", "offline_test")]] ["test_doc_1"] = Except.error e →
      (initialize_chromadb script_dir mkClient c).printed = [failMsg e] ∧
      (initialize_chromadb script_dir mkClient c).outcome =
        Outcome.returned false st1) ∧
    (∀ st1 st2 e, c.create_collection client "test_offline_collection"
        [("description", "Test collection for offline verification")] = Except.ok st1 →
      c.add st1 ["This is a test document for offline ChromaDB"]
        [[("source", "offline_test")]] ["test_doc_1"] = Except.ok st2 →
      c.query st2 ["test document"] 1 = Except.error e →
      (initialize_chromadb script_dir mkClient c).printed = [failMsg e] ∧
      (initialize_chromadb script_dir mkClient c).outcome =
        Outcome.returned false st2) ∧
    (∀ st1 st2 r e, c.create_collection client "test_offline_collection"
        [("description", "Test collection for offline verification")] = Except.ok st1 →
      c.add st1 ["This is a test document for offline ChromaDB"]
        [[("source", "offline_test")]] ["test_doc_1"] = Except.ok st2 →
      c.query st2 ["test document"] 1 = Except.ok r →
      getItem0 r = Except.error e →
      (initialize_chromadb script_dir mkClient c).printed = [successMsg, failMsg e] ∧
      (initialize_chromadb script_dir mkClient c).outcome =
        Outcome.returned false st2) ∧
    (∀ e, (initialize_chromadb script_dir mkClient c).outcome ≠ Outcome.raised e) := by
  refine ⟨?_, ?_, ?_, ?_, ?_⟩
  · intro e he
    unfold initialize_chromadb
    simp [h, he]
  · intro st1 e h1 he
    unfold initialize_chromadb
    simp [h, h1, he]
  · intro st1 st2 e h1 h2 he
    unfold initialize_chromadb
    simp [h, h1, h2, he]
  · intro st1 st2 r e h1 h2 h3 he
    unfold initialize_chromadb
    simp [h, h1, h2, h3, he]
  · intro e
    unfold initialize_chromadb
    simp only [h]
    repeat' split
    all_goals simp

/-- C2 is false as stated: at this concrete read-only persistence directory
(modelled from the spec: the library creates the directory during client
construction, so the construction fails) the failure happens before the `try`
block — the exception propagates and `initialize()` does not return `false`. -/
theorem readonly_dir_raises :
    (initialize_chromadb "/repo/data/chromadb" mkClientBadDir storeClient).outcome =
      Outcome.raised "Permission denied: /repo/data/chromadb/persist" ∧
    returnedBool
      (initialize_chromadb "/repo/data/chromadb" mkClientBadDir storeClient).outcome ≠
        some false :=
  ⟨rfl, by decide⟩

/-- C2 (amended): given a read-only or non-creatable persistence directory,
the client-construction failure propagates out of `initialize()` as an
exception and nothing is printed; `initialize()` raises rather than returning
`false`. -/
theorem readonly_dir_propagates (script_dir : String) (c : ChromaClient ClientState) :
    (initialize_chromadb script_dir mkClientBadDir c).outcome =
      Outcome.raised ("Permission denied: " ++ persist_dir_of script_dir) ∧
    (initialize_chromadb script_dir mkClientBadDir c).printed = [] :=
  ⟨rfl, rfl⟩

/-- The record the script's `collection.add` call stores: id `"test_doc_1"`,
the test document text, and its metadata. -/
def testDocRecord : DocumentRecord :=
  { id := "test_doc_1"
    document := "This is a test document for offline ChromaDB"
    metadata := [("source", "offline_test")] }

/-- The empty collection created by the script's `create_collection` call. -/
def createdCollection : StoredCollection :=
  { name := "test_offline_collection"
    metadata := [("description", "Test collection for offline verification")]
    records := [] }

/-- The client state right after the successful `create_collection` call of a
run against a fresh store (used to instantiate theorems at concrete inputs). -/
def stAfterCreate : ClientState :=
  { store := { collections := [createdCollection] }
    current := some "test_offline_collection" }

/-- The client state right after the successful `add` call of a run against a
fresh store. -/
def stAfterAdd : ClientState :=
  { store := { collections := [{ createdCollection with records := [testDocRecord] }] }
    current := some "test_offline_collection" }

/-- The query response of a run against a fresh store: one result group (one
per query text) holding the single inserted document. -/
def freshQueryResult : QueryResult :=
  { documents := some [["This is a test document for offline ChromaDB"]] }

/-- C3: whenever every external-library call succeeds — client construction,
collection creation, document insertion, and the query (returning a response
whose first result group is present) — `initialize_chromadb` prints the
success indicator and then the count of documents in the first result group of
the response, and returns `true`. -/
theorem success_prints_count_and_returns_true {σ : Type} (script_dir : String)
    (mkClient : Settings → Except String σ) (c : ChromaClient σ)
    (client st1 st2 : σ) (r : QueryResult) (d0 : List String)
    (h : mkClient (init_settings script_dir) = Except.ok client)
    (h1 : c.create_collection client "test_offline_collection"
      [("description", "Test collection for offline verification")] = Except.ok st1)
    (h2 : c.add st1 ["This is a test document for offline ChromaDB"]
      [[("source", "offline_test")]] ["test_doc_1"] = Except.ok st2)
    (h3 : c.query st2 ["test document"] 1 = Except.ok r)
    (h4 : getItem0 r = Except.ok d0) :
    (initialize_chromadb script_dir mkClient c).printed =
      [successMsg, countMsg d0.length] ∧
    (initialize_chromadb script_dir mkClient c).outcome =
      Outcome.returned true st2 := by
  unfold initialize_chromadb
  simp only [h, h1, h2, h3, h4]
  exact ⟨trivial, trivial⟩

/-- Witness for `success_prints_count_and_returns_true` at a concrete input:
the spec-modelled client over a fresh store. -/
theorem success_prints_count_and_returns_true_witness :
    (initialize_chromadb "/w3" (mkStoreClient freshStore) storeClient).printed =
      [successMsg, countMsg 1] ∧
    (initialize_chromadb "/w3" (mkStoreClient freshStore) storeClient).outcome =
      Outcome.returned true stAfterAdd :=
  success_prints_count_and_returns_true "/w3" (mkStoreClient freshStore) storeClient
    { store := freshStore, current := none } stAfterCreate stAfterAdd
    freshQueryResult ["This is a test document for offline ChromaDB"]
    rfl rfl rfl rfl rfl

/-- C4: on a successful run against a fresh persistence directory the reported
document count equals 1 — exactly one document was inserted and the query
requested at most one result, so the first result group of the response holds
exactly that document. -/
theorem fresh_run_reports_one_document :
    (initialize_chromadb "/repo/data/chromadb"
      (mkStoreClient freshStore) storeClient).printed =
        [successMsg, countMsg 1] ∧
    (initialize_chromadb "/repo/data/chromadb"
      (mkStoreClient freshStore) storeClient).outcome =
        Outcome.returned true stAfterAdd :=
  ⟨rfl, rfl⟩

/-- C5: two successive runs of `initialize_chromadb` against the same
initially fresh persistence directory: the first returns `true`; the second —
constructing its client over the store the first run persisted — hits the
collection-name collision, whose error is converted by the boundary to a
printed failure message and a `false` return. -/
theorem second_run_returns_false :
    returnedBool (initialize_chromadb "/repo"
      (mkStoreClient freshStore) storeClient).outcome = some true ∧
    returnedBool (initialize_chromadb "/repo"
      (mkStoreClient (afterStore (initialize_chromadb "/repo"
        (mkStoreClient freshStore) storeClient))) storeClient).outcome = some false ∧
    (initialize_chromadb "/repo"
      (mkStoreClient (afterStore (initialize_chromadb "/repo"
        (mkStoreClient freshStore) storeClient))) storeClient).printed =
      [failMsg "Collection test_offline_collection already exists"] :=
  ⟨rfl, rfl, rfl⟩

/-- C7: a run whose external calls succeed performs them in source order with
exactly the script's arguments: create a collection named
`"test_offline_collection"` with the descriptive metadata, then add the single
test document with its metadata and id `"test_doc_1"`, then query with query
text `"test document"` requesting at most 1 result. -/
theorem calls_in_source_order_with_exact_arguments {σ : Type} (script_dir : String)
    (mkClient : Settings → Except String σ) (c : ChromaClient σ)
    (client st1 st2 : σ) (r : QueryResult)
    (h : mkClient (init_settings script_dir) = Except.ok client)
    (h1 : c.create_collection client "test_offline_collection"
      [("description", "Test collection for offline verification")] = Except.ok st1)
    (h2 : c.add st1 ["This is a test document for offline ChromaDB"]
      [[("source", "offline_test")]] ["test_doc_1"] = Except.ok st2)
    (h3 : c.query st2 ["test document"] 1 = Except.ok r) :
    (initialize_chromadb script_dir mkClient c).trace =
      [OpCall.clientCtor (init_settings script_dir),
       OpCall.createCall "test_offline_collection"
         [("description", "Test collection for offline verification")],
       OpCall.addCall ["This is a test document for offline ChromaDB"]
         [[("source", "offline_test")]] ["test_doc_1"],
       OpCall.queryCall ["test document"] 1] := by
  unfold initialize_chromadb
  simp only [h, h1, h2, h3]
  split <;> rfl

/-- Witness for `calls_in_source_order_with_exact_arguments` at a concrete
input: the spec-modelled client over a fresh store. -/
theorem calls_in_source_order_with_exact_arguments_witness :
    (initialize_chromadb "/w7" (mkStoreClient freshStore) storeClient).trace =
      [OpCall.clientCtor (init_settings "/w7"),
       OpCall.createCall "test_offline_collection"
         [("description", "Test collection for offline verification")],
       OpCall.addCall ["This is a test document for offline ChromaDB"]
         [[("source", "offline_test")]] ["test_doc_1"],
       OpCall.queryCall ["test document"] 1] :=
  calls_in_source_order_with_exact_arguments "/w7" (mkStoreClient freshStore)
    storeClient { store := freshStore, current := none } stAfterCreate stAfterAdd
    freshQueryResult rfl rfl rfl rfl

/-- C9: when the query itself succeeds but its response has no `documents`
key, or an empty list under it, the access `results['documents'][0]` at line
40 raises inside the `try` block — so the run still prints the failure message
(after the already-printed first success line) and returns `false` instead of
propagating the exception. -/
theorem malformed_query_result_caught {σ : Type} (script_dir : String)
    (mkClient : Settings → Except String σ) (c : ChromaClient σ)
    (client st1 st2 : σ) (r : QueryResult)
    (h : mkClient (init_settings script_dir) = Except.ok client)
    (h1 : c.create_collection client "test_offline_collection"
      [("description", "Test collection for offline verification")] = Except.ok st1)
    (h2 : c.add st1 ["This is a test document for offline ChromaDB"]
      [[("source", "offline_test")]] ["test_doc_1"] = Except.ok st2)
    (h3 : c.query st2 ["test document"] 1 = Except.ok r)
    (h5 : r.documents = none ∨ r.documents = some []) :
    ∃ e, (initialize_chromadb script_dir mkClient c).printed =
        [successMsg, failMsg e] ∧
      (initialize_chromadb script_dir mkClient c).outcome =
        Outcome.returned false st2 := by
  have h4 : ∃ e0, getItem0 r = Except.error e0 := by
    rcases h5 with h5 | h5
    · exact ⟨"KeyError: documents", by simp [getItem0, h5]⟩
    · exact ⟨"list index out of range", by simp [getItem0, h5]⟩
  rcases h4 with ⟨e0, h4⟩
  unfold initialize_chromadb
  simp only [h, h1, h2, h3, h4]
  exact ⟨e0, by simp, by simp⟩

/-- A hypothetical library behaviour used to instantiate
`malformed_query_result_caught` at a concrete input: every call succeeds but
the query response carries no `documents` key. -/
def noDocumentsClient : ChromaClient Unit :=
  { create_collection := fun _ _ _ => Except.ok ()
    add := fun _ _ _ _ => Except.ok ()
    query := fun _ _ _ => Except.ok { documents := none } }

/-- Witness for `malformed_query_result_caught` at a concrete input. -/
theorem malformed_query_result_caught_witness :
    ∃ e, (initialize_chromadb "/w9" (fun _ => Except.ok ()) noDocumentsClient).printed =
        [successMsg, failMsg e] ∧
      (initialize_chromadb "/w9" (fun _ => Except.ok ()) noDocumentsClient).outcome =
        Outcome.returned false () :=
  malformed_query_result_caught "/w9" (fun _ => Except.ok ()) noDocumentsClient
    () () () { documents := none } rfl rfl rfl rfl (Or.inl rfl)

/-- C10: within one run a failure short-circuits every later step: if the
collection creation raises, neither the insertion nor the query is attempted;
if the insertion raises, the query is not attempted — the trace stops at the
failing call. -/
theorem failure_short_circuits {σ : Type} (script_dir : String)
    (mkClient : Settings → Except String σ) (c : ChromaClient σ) (client : σ)
    (h : mkClient (init_settings script_dir) = Except.ok client) :
    (∀ e, c.create_collection client "test_offline_collection"
        [("description", "Test collection for offline verification")] = Except.error e →
      (initialize_chromadb script_dir mkClient c).trace.map OpCall.tag =
        [OpTag.clientCtor, OpTag.createCall] ∧
      OpTag.addCall ∉ (initialize_chromadb script_dir mkClient c).trace.map OpCall.tag ∧
      OpTag.queryCall ∉ (initialize_chromadb script_dir mkClient c).trace.map OpCall.tag) ∧
    (∀ st1 e, c.create_collection client "test_offline_collection"
        [("description", "Test collection for offline verification")] = Except.ok st1 →
      c.add st1 ["This is a test document for offline ChromaDB"]
        [[("source", "offline_test")]] ["test_doc_1"] = Except.error e →
      (initialize_chromadb script_dir mkClient c).trace.map OpCall.tag =
        [OpTag.clientCtor, OpTag.createCall, OpTag.addCall] ∧
      OpTag.queryCall ∉ (initialize_chromadb script_dir mkClient c).trace.map OpCall.tag) := by
  constructor
  · intro e he
    unfold initialize_chromadb
    simp only [h, he]
    refine ⟨rfl, ?_, ?_⟩ <;> simp [OpCall.tag]
  · intro st1 e h1 he
    unfold initialize_chromadb
    simp only [h, h1, he]
    refine ⟨rfl, ?_⟩
    simp [OpCall.tag]

/-- A hypothetical library behaviour used to instantiate theorems at a
concrete input: the collection creation raises, the other calls succeed. -/
def failingCreateClient : ChromaClient Unit :=
  { create_collection := fun _ _ _ => Except.error "create failed"
    add := fun _ _ _ _ => Except.ok ()
    query := fun _ _ _ => Except.ok { documents := some [[]] } }

/-- Witness for `failure_short_circuits` at a concrete input. -/
theorem failure_short_circuits_witness :
    (initialize_chromadb "/w10" (fun _ => Except.ok ()) failingCreateClient).trace.map
        OpCall.tag = [OpTag.clientCtor, OpTag.createCall] ∧
    OpTag.addCall ∉ (initialize_chromadb "/w10"
      (fun _ => Except.ok ()) failingCreateClient).trace.map OpCall.tag ∧
    OpTag.queryCall ∉ (initialize_chromadb "/w10"
      (fun _ => Except.ok ()) failingCreateClient).trace.map OpCall.tag :=
  (failure_short_circuits "/w10" (fun _ => Except.ok ()) failingCreateClient () rfl).1
    "create failed" rfl

/-- Witness for `try_failures_caught` at a concrete input: a run whose
collection creation fails with a concrete error prints exactly the failure
message carrying that error's description and returns `false`. -/
theorem try_failures_caught_witness :
    (initialize_chromadb "/w1" (fun _ => Except.ok ()) failingCreateClient).printed =
      [failMsg "create failed"] ∧
    (initialize_chromadb "/w1" (fun _ => Except.ok ()) failingCreateClient).outcome =
      Outcome.returned false () :=
  (try_failures_caught "/w1" (fun _ => Except.ok ()) failingCreateClient () rfl).1
    "create failed" rfl

/-- Helper: searching by a name among collections extended on the right with a
collection of a different name is unchanged. -/
theorem find?_append_other (cs : List StoredCollection) (c : StoredCollection)
    (n : String) (h : n ≠ c.name) :
    List.find? (fun x => x.name == n) (cs ++ [c]) =
      List.find? (fun x => x.name == n) cs := by
  rw [List.find?_append]
  have hc : List.find? (fun x => x.name == n) [c] = none := by
    rw [List.find?_cons_of_neg, List.find?_nil]
    simp only [beq_iff_eq]
    exact fun hh => h hh.symm
  rw [hc, Option.or_none]

/-- Helper: mapping a name-preserving update that fixes every collection whose
name matches the searched one leaves `find?` unchanged. -/
theorem find?_map_other (l : List StoredCollection) (n : String)
    (f : StoredCollection → StoredCollection)
    (hname : ∀ c, (f c).name = c.name)
    (hfix : ∀ c, (c.name == n) = true → f c = c) :
    List.find? (fun x => x.name == n) (l.map f) =
      List.find? (fun x => x.name == n) l := by
  induction l with
  | nil => rfl
  | cons a t ih =>
    by_cases ha : (a.name == n) = true
    · rw [List.map_cons,
        @List.find?_cons_of_pos _ (fun x => x.name == n) (f a) (t.map f)
          (by simp only [hname]; exact ha),
        @List.find?_cons_of_pos _ (fun x => x.name == n) a t ha, hfix a ha]
    · rw [List.map_cons,
        @List.find?_cons_of_neg _ (fun x => x.name == n) (f a) (t.map f)
          (by simp only [hname]; exact ha),
        @List.find?_cons_of_neg _ (fun x => x.name == n) a t ha, ih]

/-- A successful `storeCreateCollection` hands out the new collection and
leaves every collection of a different name untouched. -/
theorem storeCreateCollection_ok (st st' : ClientState) (nm : String)
    (md : List (String × String))
    (h : storeCreateCollection st nm md = Except.ok st') :
    st'.current = some nm ∧
    ∀ n, n ≠ nm → Store.find st'.store n = Store.find st.store n := by
  unfold storeCreateCollection at h
  split at h
  · exact absurd h (by simp)
  · injection h with h2
    subst h2
    refine ⟨rfl, ?_⟩
    intro n hn
    unfold Store.find
    exact find?_append_other _ _ _ hn

/-- A successful `storeAdd` mutates only the collection the client handle
points at. -/
theorem storeAdd_ok (st st' : ClientState) (documents : List String)
    (metadatas : List (List (String × String))) (ids : List String) (nm : String)
    (hcur : st.current = some nm)
    (h : storeAdd st documents metadatas ids = Except.ok st') :
    ∀ n, n ≠ nm → Store.find st'.store n = Store.find st.store n := by
  unfold storeAdd at h
  rw [hcur] at h
  cases hfind : st.store.find nm with
  | none =>
    simp only [hfind] at h
    exact absurd h (by simp)
  | some col =>
    simp only [hfind] at h
    split at h
    · exact absurd h (by simp)
    · split at h
      · exact absurd h (by simp)
      · injection h with h2
        subst h2
        intro n hn
        unfold Store.find
        refine find?_map_other _ _ _ ?_ ?_
        · intro c
          by_cases hc : (c.name == nm) = true <;> simp [hc]
        · intro c hcn
          have h1 : c.name = n := by simpa using hcn
          simp [h1, hn]

/-- C8: no operation performed by a run of `initialize_chromadb` mutates any
collection other than `"test_offline_collection"`: for every starting store
and every other collection name, looking that name up in the store after the
run gives exactly what it gave before the run. -/
theorem other_collections_unchanged (s0 : Store) (script_dir n : String)
    (h : n ≠ "test_offline_collection") :
    Store.find
      (afterStore (initialize_chromadb script_dir (mkStoreClient s0) storeClient)) n =
      Store.find s0 n := by
  have hmk : mkStoreClient s0 (init_settings script_dir) =
      Except.ok { store := s0, current := none } := rfl
  unfold initialize_chromadb
  rcases hc : storeClient.create_collection { store := s0, current := none }
      "test_offline_collection"
      [("description", "Test collection for offline verification")] with e | st1
  · simp only [hmk, hc]
    rfl
  · obtain ⟨hcur1, hframe1⟩ := storeCreateCollection_ok _ _ _ _ hc
    rcases ha : storeClient.add st1 ["This is a test document for offline ChromaDB"]
        [[("source", "offline_test")]] ["test_doc_1"] with e | st2
    · simp only [hmk, hc, ha]
      exact hframe1 n h
    · have hframe2 := storeAdd_ok _ _ _ _ _ _ hcur1 ha
      rcases hq : storeClient.query st2 ["test document"] 1 with e | r
      · simp only [hmk, hc, ha, hq]
        exact (hframe2 n h).trans (hframe1 n h)
      · rcases hg : getItem0 r with e | d0
        · simp only [hmk, hc, ha, hq, hg]
          exact (hframe2 n h).trans (hframe1 n h)
        · simp only [hmk, hc, ha, hq, hg]
          exact (hframe2 n h).trans (hframe1 n h)

/-- Witness for `other_collections_unchanged` at a concrete input: a store
already holding an unrelated collection. -/
theorem other_collections_unchanged_witness :
    "other" ≠ "test_offline_collection" ∧
    Store.find
      (afterStore (initialize_chromadb "/w8"
        (mkStoreClient { collections := [{ name := "other", metadata := [], records := [] }] })
        storeClient)) "other" =
      Store.find { collections := [{ name := "other", metadata := [], records := [] }] } "other" :=
  ⟨by decide, other_collections_unchanged
    { collections := [{ name := "other", metadata := [], records := [] }] }
    "/w8" "other" (by decide)⟩
